import Mathlib

/-!
Verification of the layout / invalidation / render-scheduling core of
skia-canvas-ui (src/core.js).

The development is a shallow embedding of the relevant parts of the source:

* geometry and style value objects (`Vector2`, `SDim`, `SDim2`, `UIStyle`)
  with the style-merge algorithm;
* the default layout pass (`function layout`, src/core.js lines 450-489) over
  an explicit node tree;
* the per-frame traversals `iterativeCheckForStyleChanges` and
  `iterativeDraw`, modelled by the list of subtrees each traversal is invoked
  on;
* the mutable object graph of `Node.parent` reparenting, `Context`'s
  `_scheduleLayout` and the `size` setter, modelled as explicit state passing
  over a `World` of node records and contexts;
* the dynamically-typed arithmetic helpers of `Vector2` / `SDim` / `SDim2`
  together with their `instanceof` guards and `isNaN` constructor checks,
  modelled over a small universe of JavaScript values (namespace `JS`).

JavaScript numbers are IEEE doubles; every quantity the claims touch is a
small integer, on which double arithmetic is exact, so finite numbers are
modelled by the exact rationals `ℚ`.
-/

/-- `class Vector2`: a 2-component vector.  Only the data is modelled here;
the arithmetic helpers with their dynamic type guards are modelled in
namespace `JS` below. -/
structure Vector2 where
  x : ℚ
  y : ℚ
deriving DecidableEq

/-- `class SDim`: scale/offset pair; resolves to
`scale * parentExtent + offset`. -/
structure SDim where
  scale : ℚ
  offset : ℚ
deriving DecidableEq

/-- `class SDim2`: scale/offset pair per axis. -/
structure SDim2 where
  scaleX : ℚ
  offsetX : ℚ
  scaleY : ℚ
  offsetY : ℚ
deriving DecidableEq

/-- `new SDim2(a, b)` with only two arguments: the constructor's arity quirk
interprets both as offsets (`offsetY === undefined` branch). -/
def SDim2.twoArg (a b : ℚ) : SDim2 := ⟨0, a, 0, b⟩

/-- `SDim2.fromScale(scaleX, scaleY)` = `new SDim2(scaleX, 0, scaleY, 0)`. -/
def SDim2.fromScale (sx sy : ℚ) : SDim2 := ⟨sx, 0, sy, 0⟩

/-- `SDim2.fromOffset(offsetX, offsetY)` = `new SDim2(offsetX, offsetY)`. -/
def SDim2.fromOffset (ox oy : ℚ) : SDim2 := SDim2.twoArg ox oy

/-- `class Color` (RGBA in [0,1]); the CanvasKit handle `_ckColor` is a
graphics-backend detail and is not modelled. -/
structure Color where
  r : ℚ
  g : ℚ
  b : ℚ
  a : ℚ
deriving DecidableEq

/-- `Color.fromRGB(r, g, b, a)`. -/
def Color.fromRGB (r g b a : ℚ) : Color := ⟨r / 255, g / 255, b / 255, a⟩

/-- `class FillPaint` restricted to its role as a style payload: the claims
only compare paints, never rasterize them, so the paint is its color
(`Paint.type` is always `PaintType("Color")` for the paints styles build). -/
structure FillPaint where
  color : Color
deriving DecidableEq

/-- `FillPaint.fromColor(color)`. -/
def FillPaint.fromColor (c : Color) : FillPaint := ⟨c⟩

/-- `enums.TextAlign` values. -/
inductive TextAlign where
  | Left
  | Center
  | Right
  | Justify
  | Start
  | End
deriving DecidableEq

/-- `enums.VerticalTextAlign` values. -/
inductive VerticalTextAlign where
  | Top
  | Middle
  | Bottom
deriving DecidableEq

/-- `class UIStyle`: record of nullable style fields; `none` models JS
`null`.  A plain `new UIStyle()` has every field null. -/
structure UIStyle where
  background : Option FillPaint := none
  color : Option Color := none
  paddingLeft : Option SDim := none
  paddingTop : Option SDim := none
  paddingRight : Option SDim := none
  paddingBottom : Option SDim := none
  textSize : Option ℚ := none
  textAlign : Option TextAlign := none
  verticalTextAlign : Option VerticalTextAlign := none
deriving DecidableEq

/-- Override of one nullable field, the body of
`if (style[property] !== null) newStyle[property] = style[property]`:
a non-null later value wins, a null later value keeps the accumulator. -/
def ovr (old new : Option α) : Option α :=
  match new with
  | some v => some v
  | none => old

/-- One iteration of `UIStyle.merge`'s outer loop: copy every non-null
field of `s` over the accumulator (the `for (const property in style)` loop
ranges over exactly the nine class fields, which are own enumerable
properties of every `UIStyle` instance). -/
def mergeStep (acc s : UIStyle) : UIStyle where
  background := ovr acc.background s.background
  color := ovr acc.color s.color
  paddingLeft := ovr acc.paddingLeft s.paddingLeft
  paddingTop := ovr acc.paddingTop s.paddingTop
  paddingRight := ovr acc.paddingRight s.paddingRight
  paddingBottom := ovr acc.paddingBottom s.paddingBottom
  textSize := ovr acc.textSize s.textSize
  textAlign := ovr acc.textAlign s.textAlign
  verticalTextAlign := ovr acc.verticalTextAlign s.verticalTextAlign

/-- `UIStyle.merge(styles)` (src/core.js lines 668-674): fold the override
step over the list, starting from a fresh all-null `new UIStyle()`. -/
def UIStyle.merge (styles : List UIStyle) : UIStyle :=
  styles.foldl mergeStep {}

/-- `UIStyle.fromDefault()`. -/
def UIStyle.fromDefault : UIStyle where
  background := some (FillPaint.fromColor (Color.fromRGB 255 255 255 1))
  color := some (Color.fromRGB 0 0 0 1)
  paddingLeft := some ⟨0, 0⟩
  paddingTop := some ⟨0, 0⟩
  paddingRight := some ⟨0, 0⟩
  paddingBottom := some ⟨0, 0⟩
  textSize := some 14
  textAlign := some .Center
  verticalTextAlign := some .Middle

/-- `UIStyle.default = UIStyle.fromDefault()` (the read-only default style). -/
def UIStyle.default : UIStyle := UIStyle.fromDefault

/-- `UIObject.computedStyle` (src/core.js lines 736-738):
`UIStyle.merge([UIStyle.default, ...this.styles, this.style])`. -/
def computedStyle (styles : List UIStyle) (style : UIStyle) : UIStyle :=
  UIStyle.merge (UIStyle.default :: styles ++ [style])

/-- The last non-null entry of a sequence of nullable values.  This is the
specification-side description of the merge ("the value of the last style in
the sequence whose field is non-null"), written independently of the fold in
`UIStyle.merge`. -/
def lastSome : List (Option α) → Option α
  | [] => none
  | a :: t =>
    match lastSome t with
    | some v => some v
    | none => a

/-- Per-node state of a `UIObject`: relative descriptors, style payload and
the cached absolute fields written by layout.  Default values follow the
class-field initializers of `Node` / `UIObject`. -/
structure UIObjectData where
  name : String := "UIObject"
  absolutePosition : Vector2 := ⟨0, 0⟩
  absoluteSize : Vector2 := ⟨0, 0⟩
  absoluteAnchorPoint : Vector2 := ⟨0, 0⟩
  absolutePaddingLeft : ℚ := 0
  absolutePaddingTop : ℚ := 0
  absolutePaddingRight : ℚ := 0
  absolutePaddingBottom : ℚ := 0
  visibleOnScreen : Bool := true
  zIndex : ℚ := 1
  clipsDescendants : Bool := false
  position : SDim2 := ⟨0, 0, 0, 0⟩
  size : SDim2 := ⟨0, 0, 0, 0⟩
  anchorPoint : SDim2 := ⟨0, 0, 0, 0⟩
  visible : Bool := true
  styles : List UIStyle := []
  style : UIStyle := {}
deriving DecidableEq

/-- The UI node tree: a `UIObject` together with its ordered children. -/
inductive UITree where
  | node (data : UIObjectData) (children : List UITree)

def UITree.data : UITree → UIObjectData
  | .node d _ => d

def UITree.children : UITree → List UITree
  | .node _ cs => cs

/-- Reads a padding field of a computed style.  In the source
`computedStyle.paddingLeft` and friends are never null, because the merge
starts from `UIStyle.default` whose padding fields are all set (lemma
`computedStyle_padding_isSome` below); the `none` branch is unreachable. -/
def styleSDim (o : Option SDim) : SDim := o.getD ⟨0, 0⟩

/-- One node's pass of the default layout function (src/core.js lines
450-484), reading the parent's already-computed absolute fields and the
context (surface) size.  The recursion into children is `layoutTree`. -/
def layoutData (contextSize : Vector2) (parent : UIObjectData)
    (updatePosition : Bool) (d : UIObjectData) : UIObjectData :=
  let size := d.size
  let parentAbsoluteSize := parent.absoluteSize
  let cstyle := computedStyle d.styles d.style
  let absoluteSizeX := size.scaleX * parentAbsoluteSize.x + size.offsetX -
    parent.absolutePaddingLeft - parent.absolutePaddingRight
  let absoluteSizeY := size.scaleY * parentAbsoluteSize.y + size.offsetY -
    parent.absolutePaddingTop - parent.absolutePaddingBottom
  let absolutePaddingLeft := (styleSDim cstyle.paddingLeft).scale * absoluteSizeX +
    (styleSDim cstyle.paddingLeft).offset
  let absolutePaddingTop := (styleSDim cstyle.paddingTop).scale * absoluteSizeY +
    (styleSDim cstyle.paddingTop).offset
  let absolutePaddingRight := (styleSDim cstyle.paddingRight).scale * absoluteSizeX +
    (styleSDim cstyle.paddingRight).offset
  let absolutePaddingBottom := (styleSDim cstyle.paddingBottom).scale * absoluteSizeY +
    (styleSDim cstyle.paddingBottom).offset
  let absoluteAnchorPoint : Vector2 :=
    if updatePosition then
      ⟨d.anchorPoint.scaleX * absoluteSizeX + d.anchorPoint.offsetX,
       d.anchorPoint.scaleY * absoluteSizeY + d.anchorPoint.offsetY⟩
    else d.absoluteAnchorPoint
  let absolutePosition : Vector2 :=
    if updatePosition then
      ⟨d.position.scaleX * parentAbsoluteSize.x + d.position.offsetX -
         absoluteAnchorPoint.x + parent.absolutePosition.x + parent.absolutePaddingLeft,
       d.position.scaleY * parentAbsoluteSize.y + d.position.offsetY -
         absoluteAnchorPoint.y + parent.absolutePosition.y + parent.absolutePaddingTop⟩
    else d.absolutePosition
  let visibleOnScreen :=
    decide (absolutePosition.x < contextSize.x) &&
    decide (absolutePosition.y < contextSize.y) &&
    decide (absolutePosition.x + absoluteSizeX > 0) &&
    decide (absolutePosition.y + absoluteSizeY > 0)
  { d with
    absoluteSize := ⟨absoluteSizeX, absoluteSizeY⟩
    absolutePaddingLeft := absolutePaddingLeft
    absolutePaddingTop := absolutePaddingTop
    absolutePaddingRight := absolutePaddingRight
    absolutePaddingBottom := absolutePaddingBottom
    absoluteAnchorPoint := absoluteAnchorPoint
    absolutePosition := absolutePosition
    visibleOnScreen := visibleOnScreen }

mutual

/-- The default layout including its recursion
`for (const child of this.children) if (child.visible && child.layout)
child.layout(updateChildPosition !== false)`.  No caller in the sources ever
passes `updateChildPosition`, so children always receive `true`. -/
def layoutTree (contextSize : Vector2) (parent : UIObjectData)
    (updatePosition : Bool) : UITree → UITree
  | .node d cs =>
    let dNew := layoutData contextSize parent updatePosition d
    .node dNew (layoutChildren contextSize dNew cs)

/-- The child loop of `layout`: invisible children are skipped (left with
their stale cached fields). -/
def layoutChildren (contextSize : Vector2) (parent : UIObjectData) :
    List UITree → List UITree
  | [] => []
  | c :: rest =>
    (if c.data.visible then layoutTree contextSize parent true c else c) ::
      layoutChildren contextSize parent rest

end

/-- The root's layout override installed by the `Context` constructor
(src/core.js lines 872-877): `absoluteSize` is set to the context's size and
visible children are laid out with `updatePosition = true`; the root has no
position/anchor/padding resolution of its own. -/
def layoutRoot (contextSize : Vector2) : UITree → UITree
  | .node d cs =>
    let dNew := { d with absoluteSize := contextSize }
    .node dNew (layoutChildren contextSize dNew cs)

/-- Convenience projection: the node data produced by laying out
`node d cs` under `parent`. -/
def layoutResult (contextSize : Vector2) (parent : UIObjectData)
    (updatePosition : Bool) (d : UIObjectData) (cs : List UITree) : UIObjectData :=
  (layoutTree contextSize parent updatePosition (.node d cs)).data

/-- The i-th child of a tree (defaulting to the tree itself out of range). -/
def nthChild (t : UITree) (i : ℕ) : UITree := t.children.getD i t

/-- Stable ascending insertion for
`[...children].sort((a, b) => a.zIndex - b.zIndex)` (modern `Array.sort` is
stable): `a` is placed before the first existing element whose key is not
strictly smaller, so earlier children stay before later children with equal
`zIndex`. -/
def insertOn (key : α → ℚ) (a : α) : List α → List α
  | [] => [a]
  | u :: rest =>
    if key u < key a then u :: insertOn key a rest else a :: u :: rest

/-- Stable insertion sort on a rational key. -/
def sortOn (key : α → ℚ) : List α → List α
  | [] => []
  | a :: rest => insertOn key a (sortOn key rest)

/-- Concatenates the recursive traversal results of a child list after
stably sorting the children by `zIndex`; the recursion itself is pure, so
computing each child's result first and ordering afterwards is the same as
recursing over the sorted list. -/
def flattenByZ (pairs : List (UITree × List UITree)) : List UITree :=
  (sortOn (fun p => p.1.data.zIndex) pairs).flatMap (fun p => p.2)

mutual

/-- Invocation list of `iterativeCheckForStyleChanges` (src/core.js lines
934-946): the subtrees the sweep is called on, in order.  A node recurses
into its children iff it is visible and either on screen, or off screen
without `clipsDescendants`.  The style bookkeeping the sweep performs at each
visited node is not needed by the traversal claims. -/
def styleSweepCalls : UITree → List UITree
  | .node d cs =>
    .node d cs ::
      (if d.visible then
        (if d.visibleOnScreen then styleSweepCallsList cs
         else if !d.clipsDescendants then styleSweepCallsList cs
         else [])
       else [])

def styleSweepCallsList : List UITree → List UITree
  | [] => []
  | c :: rest => styleSweepCalls c ++ styleSweepCallsList rest

end

mutual

/-- Invocation list of `iterativeDraw` (src/core.js lines 948-955): the
subtrees the draw traversal is called on, in paint order.  Children are
visited sorted by ascending `zIndex`; the same visibility/clipping branch
structure as the style sweep decides whether children are visited at all. -/
def drawCalls : UITree → List UITree
  | .node d cs =>
    .node d cs ::
      (if d.visible then
        (if d.visibleOnScreen then flattenByZ (drawCallsPairs cs)
         else if !d.clipsDescendants then flattenByZ (drawCallsPairs cs)
         else [])
       else [])

def drawCallsPairs : List UITree → List (UITree × List UITree)
  | [] => []
  | c :: rest => (c, drawCalls c) :: drawCallsPairs rest

end

/-! ## The mutable object graph: nodes, contexts, scheduling

`Node.parent` assignment, `Context._scheduleLayout` and the `Context` size
setter mutate an object graph with reference identity (`includes` and
`indexOf` compare references).  We model the graph as a `World`: a total map
from node ids to node records and from context ids to context records. -/

/-- The fields of a `Node` that the scheduling claims depend on:
`#parent`, `_context`, `visible` and the ordered `children` list (stored as
node ids; the JS lists store references). -/
structure NodeRec where
  parent : Option ℕ := none
  context : Option ℕ := none
  visible : Bool := true
  children : List ℕ := []
deriving DecidableEq

/-- The fields of a `Context` the claims depend on: its root node, its
`size` and the `relayout` work list. -/
structure Ctx where
  root : ℕ := 0
  size : Vector2 := ⟨0, 0⟩
  relayout : List ℕ := []
deriving DecidableEq

/-- The object graph. -/
structure World where
  nodes : ℕ → NodeRec
  ctxs : ℕ → Ctx

/-- Updates one node record. -/
def World.updNode (w : World) (i : ℕ) (f : NodeRec → NodeRec) : World :=
  { w with nodes := fun j => if j = i then f (w.nodes i) else w.nodes j }

/-- Updates one context record. -/
def World.updCtx (w : World) (c : ℕ) (f : Ctx → Ctx) : World :=
  { w with ctxs := fun e => if e = c then f (w.ctxs c) else w.ctxs e }

/-- `Context._scheduleLayout(object)` (src/core.js lines 911-913): append the
object to this context's relayout list iff the object belongs to this
context, has a (truthy) parent, is visible, and is not already present. -/
def _scheduleLayout (w : World) (c : ℕ) (o : ℕ) : World :=
  if (w.nodes o).context = some c ∧ ((w.nodes o).parent).isSome = true ∧
      (w.nodes o).visible = true ∧ o ∉ (w.ctxs c).relayout then
    w.updCtx c (fun cx => { cx with relayout := cx.relayout ++ [o] })
  else w

/-- `this.#parent.children.splice(this.#parent.children.indexOf(this), 1)`:
removes the first occurrence of `x`.  When `x` is absent, `indexOf` returns
`-1` and `splice(-1, 1)` removes the *last* element of a non-empty list (and
nothing from an empty one). -/
def spliceRemove (l : List ℕ) (x : ℕ) : List ℕ :=
  if x ∈ l then l.erase x else l.dropLast

/-- The detach half of the `Node.parent` setter (src/core.js lines 690-693):
if the node has an old parent, remove the node from the old parent's children
and schedule the old parent in the old parent's context.  Reading
`_scheduleLayout` off a null `_context` is a TypeError, modelled as
`Except.error`. -/
def detachFromOld (w : World) (child : ℕ) : Except Unit World :=
  match (w.nodes child).parent with
  | none => .ok w
  | some p =>
    let wa := w.updNode p (fun n => { n with children := spliceRemove n.children child })
    match (wa.nodes p).context with
    | none => .error ()
    | some pc => .ok (_scheduleLayout wa pc p)

/-- The attach half of the `Node.parent` setter (src/core.js lines 699-702),
in source order: `this._context = newParent._context`,
`newParent.children.push(this)`, `this._context._scheduleLayout(this)`
(a TypeError when the new context is null, modelled as `Except.error`),
and only then `this.#parent = newParent`.  The scheduling call therefore
still sees the *old* parent field. -/
def attachToNew (w1 : World) (child np : ℕ) : Except Unit World :=
  let npc := (w1.nodes np).context
  let w2 := w1.updNode child (fun n => { n with context := npc })
  let w3 := w2.updNode np (fun n => { n with children := n.children ++ [child] })
  match npc with
  | none => .error ()
  | some c0 =>
    let w4 := _scheduleLayout w3 c0 child
    .ok (w4.updNode child (fun n => { n with parent := some np }))

/-- The `Node.parent` setter (src/core.js lines 688-703).  Assigning the
current parent is a no-op; assigning `null` detaches and clears the context
reference. -/
def setParent (w : World) (child : ℕ) (newParent : Option ℕ) : Except Unit World :=
  if newParent = (w.nodes child).parent then .ok w
  else
    match detachFromOld w child with
    | .error e => .error e
    | .ok w1 =>
      match newParent with
      | none => .ok (w1.updNode child (fun n => { n with context := none, parent := none }))
      | some np => attachToNew w1 child np

/-- The body of every setter installed by `_propertyTriggersLayout`
(src/core.js lines 749-761) after the value write:
`if (this._context) this._context._scheduleLayout(this)`.  The written value
(position / size / anchorPoint) is layout data, not part of the scheduling
state. -/
def propertySetterTrigger (w : World) (o : ℕ) : World :=
  match (w.nodes o).context with
  | some c => _scheduleLayout w c o
  | none => w

/-- The `Context` `size` setter (src/core.js lines 896-904): store the new
size and push the root directly onto the relayout list (the surface
recreation is a graphics-backend effect outside the model).  Note that this
bypasses `_scheduleLayout` and its guard. -/
def setSize (w : World) (c : ℕ) (newValue : Vector2) : World :=
  w.updCtx c (fun cx => { cx with size := newValue, relayout := cx.relayout ++ [cx.root] })

/-- The claimed relayout-list invariant: no entry has a null parent, no
entry is invisible, and there are no duplicate entries. -/
def RelayoutInv (w : World) : Prop :=
  ∀ c : ℕ, (w.ctxs c).relayout.Nodup ∧
    ∀ n ∈ (w.ctxs c).relayout,
      (w.nodes n).parent ≠ none ∧ (w.nodes n).visible = true

/-- Extracts the success state of a fallible operation (used to name the
world a successful operation produces). -/
def extractOk (e : Except Unit World) (fallback : World) : World :=
  match e with
  | .ok w => w
  | .error _ => fallback

/-! ## Dynamically-typed arithmetic helpers (namespace `JS`)

The static methods `Vector2.add/subtract/multiply/divide`, `SDim.add/subtract`
and `SDim2.add/subtract` take arbitrary JavaScript values and guard them with
expressions of the form `if (!a instanceof Vector2) throw ...`.  Because `!`
binds tighter than `instanceof`, such a guard tests whether the *boolean*
`!a` is an instance, which is never true, so these guards never fire; errors
surface instead through `isNaN`-style checks.  The model keeps the guards
exactly as written (via `bangInstanceOf`) so this behaviour is provable, not
assumed. -/

namespace JS

/-- The universe of JavaScript values these helpers can meet: finite numbers
(`num (some q)`), `NaN` (`num none`), `undefined`, booleans, and instances of
the three geometry classes.  Object fields hold numbers (`none` = NaN). -/
inductive Value where
  | num (n : Option ℚ)
  | undefined
  | boolean (b : Bool)
  | vector2 (x y : Option ℚ)
  | sdim (scale offset : Option ℚ)
  | sdim2 (scaleX offsetX scaleY offsetY : Option ℚ)
deriving DecidableEq

/-- The three geometry classes. -/
inductive Kind where
  | vector2
  | sdim
  | sdim2
deriving DecidableEq

/-- `v instanceof K`. -/
def instanceOf : Value → Kind → Bool
  | .vector2 _ _, .vector2 => true
  | .sdim _ _, .sdim => true
  | .sdim2 _ _ _ _, .sdim2 => true
  | _, _ => false

/-- JavaScript truthiness: objects are truthy; `0`, `NaN`, `undefined` and
`false` are falsy. -/
def truthy : Value → Bool
  | .num (some q) => decide (q ≠ 0)
  | .num none => false
  | .undefined => false
  | .boolean b => b
  | .vector2 _ _ => true
  | .sdim _ _ => true
  | .sdim2 _ _ _ _ => true

/-- The guard expression `!v instanceof K` exactly as the source parses:
`(!v) instanceof K`, the boolean `!v` tested for being an instance. -/
def bangInstanceOf (v : Value) (k : Kind) : Bool :=
  instanceOf (.boolean (!truthy v)) k

/-- `ToNumber` as used by `isNaN` and numeric coercion: numbers are
themselves, `undefined` is NaN, booleans are 0/1, and each of the geometry
objects stringifies to a string containing "[object Object]" whose numeric
value is NaN. -/
def toNumber : Value → Option ℚ
  | .num n => n
  | .undefined => none
  | .boolean b => some (if b then 1 else 0)
  | .vector2 _ _ => none
  | .sdim _ _ => none
  | .sdim2 _ _ _ _ => none

/-- The global `isNaN(v)`: true iff `ToNumber(v)` is NaN. -/
def jsIsNaN (v : Value) : Bool := (toNumber v).isNone

/-- The property names the arithmetic helpers read. -/
inductive Field where
  | x
  | y
  | scale
  | offset
  | scaleX
  | offsetX
  | scaleY
  | offsetY
deriving DecidableEq

/-- Property access `v.f`.  A `Vector2` has own `x`/`y`; an `SDim` has own
`scale`/`offset`; an `SDim2` has own `scaleX/offsetX/scaleY/offsetY` plus
getters `x`/`y` that build fresh `SDim` objects; every other access yields
`undefined`. -/
def getProp : Value → Field → Value
  | .vector2 a _, .x => .num a
  | .vector2 _ b, .y => .num b
  | .sdim s _, .scale => .num s
  | .sdim _ o, .offset => .num o
  | .sdim2 sx ox _ _, .x => .sdim sx ox
  | .sdim2 _ _ sy oy, .y => .sdim sy oy
  | .sdim2 sx _ _ _, .scaleX => .num sx
  | .sdim2 _ ox _ _, .offsetX => .num ox
  | .sdim2 _ _ sy _, .scaleY => .num sy
  | .sdim2 _ _ _ oy, .offsetY => .num oy
  | _, _ => .undefined

/-- NaN-propagating addition on coerced numbers. -/
def addN : Option ℚ → Option ℚ → Option ℚ
  | some a, some b => some (a + b)
  | _, _ => none

/-- NaN-propagating subtraction. -/
def subN : Option ℚ → Option ℚ → Option ℚ
  | some a, some b => some (a - b)
  | _, _ => none

/-- NaN-propagating multiplication. -/
def mulN : Option ℚ → Option ℚ → Option ℚ
  | some a, some b => some (a * b)
  | _, _ => none

/-- Division.  Division by zero yields a non-finite value (`±Infinity`),
which the model folds into the non-finite marker `none`; no claim evaluates
that branch. -/
def divN : Option ℚ → Option ℚ → Option ℚ
  | some a, some b => if b = 0 then none else some (a / b)
  | _, _ => none

/-- JS `a + b` restricted to its uses here.  When an operand is one of the
geometry objects the JS result is a string containing "[object Object]",
which the constructors' `isNaN` checks treat exactly like NaN, so the model
returns NaN directly (identical behaviour for every consumer in scope);
otherwise numeric addition with NaN propagation. -/
def jsAdd (a b : Value) : Value := .num (addN (toNumber a) (toNumber b))

/-- JS `a - b` (always numeric, NaN on object/undefined operands). -/
def jsSub (a b : Value) : Value := .num (subN (toNumber a) (toNumber b))

/-- JS `a * b`. -/
def jsMul (a b : Value) : Value := .num (mulN (toNumber a) (toNumber b))

/-- JS `a / b`. -/
def jsDiv (a b : Value) : Value := .num (divN (toNumber a) (toNumber b))

/-- `new Vector2(x, y)` (src/core.js lines 23-29): throws naming the first
NaN argument, otherwise stores the values.  (Arguments that pass the check
are stored coerced; all call sites below pass numbers.) -/
def newVector2 (x y : Value) : Except String Value :=
  if jsIsNaN x then .error "x is NaN"
  else if jsIsNaN y then .error "y is NaN"
  else .ok (.vector2 (toNumber x) (toNumber y))

/-- `new SDim(scale, offset)` (src/core.js lines 124-140). -/
def newSDim (scale offset : Value) : Except String Value :=
  if jsIsNaN scale then .error "scale is NaN"
  else if jsIsNaN offset then .error "offset is NaN"
  else .ok (.sdim (toNumber scale) (toNumber offset))

/-- `new SDim2(scaleX, offsetX, scaleY, offsetY)` (src/core.js lines
206-236), including the arity sniffing: when `offsetY` is `undefined` the
first two arguments are reinterpreted as pure offsets. -/
def newSDim2 (scaleX offsetX scaleY offsetY : Value) : Except String Value :=
  if jsIsNaN scaleX then .error "scaleX is NaN"
  else if jsIsNaN offsetX then .error "offsetX is NaN"
  else if scaleY ≠ Value.undefined ∧ jsIsNaN scaleY then .error "scaleY is NaN"
  else if offsetY ≠ Value.undefined ∧ jsIsNaN offsetY then .error "offsetY is NaN"
  else if offsetY ≠ Value.undefined then
    .ok (.sdim2 (toNumber scaleX) (toNumber offsetX) (toNumber scaleY) (toNumber offsetY))
  else
    .ok (.sdim2 (some 0) (toNumber scaleX) (some 0) (toNumber offsetX))

/-- `Vector2.add(a, b)` (src/core.js lines 59-63). -/
def Vector2.add (a b : Value) : Except String Value :=
  if bangInstanceOf a .vector2 then .error "a is not Vector2"
  else if bangInstanceOf b .vector2 then .error "b is not Vector2"
  else newVector2 (jsAdd (getProp a .x) (getProp b .x)) (jsAdd (getProp a .y) (getProp b .y))

/-- `Vector2.subtract(a, b)` (src/core.js lines 71-75). -/
def Vector2.subtract (a b : Value) : Except String Value :=
  if bangInstanceOf a .vector2 then .error "a is not Vector2"
  else if bangInstanceOf b .vector2 then .error "b is not Vector2"
  else newVector2 (jsSub (getProp a .x) (getProp b .x)) (jsSub (getProp a .y) (getProp b .y))

/-- `Vector2.multiply(a, b)` (src/core.js lines 83-87): the second guard is
`!b instanceof Vector2 || isNaN(b)`, and the result branches on
`b instanceof Vector2`. -/
def Vector2.multiply (a b : Value) : Except String Value :=
  if bangInstanceOf a .vector2 then .error "a is not Vector2"
  else if bangInstanceOf b .vector2 || jsIsNaN b then .error "b is not Vector2 or number"
  else if instanceOf b .vector2 then
    newVector2 (jsMul (getProp a .x) (getProp b .x)) (jsMul (getProp a .y) (getProp b .y))
  else
    newVector2 (jsMul (getProp a .x) b) (jsMul (getProp a .y) b)

/-- `Vector2.divide(a, b)` (src/core.js lines 95-99). -/
def Vector2.divide (a b : Value) : Except String Value :=
  if bangInstanceOf a .vector2 then .error "a is not Vector2"
  else if bangInstanceOf b .vector2 || jsIsNaN b then .error "b is not Vector2 or number"
  else if instanceOf b .vector2 then
    newVector2 (jsDiv (getProp a .x) (getProp b .x)) (jsDiv (getProp a .y) (getProp b .y))
  else
    newVector2 (jsDiv (getProp a .x) b) (jsDiv (getProp a .y) b)

/-- `SDim.add(a, b)` (src/core.js lines 168-172). -/
def SDim.add (a b : Value) : Except String Value :=
  if bangInstanceOf a .sdim then .error "a is not SDim"
  else if bangInstanceOf b .sdim then .error "b is not SDim"
  else newSDim (jsAdd (getProp a .scale) (getProp b .scale))
    (jsAdd (getProp a .offset) (getProp b .offset))

/-- `SDim.subtract(a, b)` (src/core.js lines 180-184). -/
def SDim.subtract (a b : Value) : Except String Value :=
  if bangInstanceOf a .sdim then .error "a is not SDim"
  else if bangInstanceOf b .sdim then .error "b is not SDim"
  else newSDim (jsSub (getProp a .scale) (getProp b .scale))
    (jsSub (getProp a .offset) (getProp b .offset))

/-- `SDim2.add(a, b)` (src/core.js lines 289-298). -/
def SDim2.add (a b : Value) : Except String Value :=
  if bangInstanceOf a .sdim2 then .error "a is not SDim2"
  else if bangInstanceOf b .sdim2 then .error "b is not SDim2"
  else newSDim2 (jsAdd (getProp a .scaleX) (getProp b .scaleX))
    (jsAdd (getProp a .offsetX) (getProp b .offsetX))
    (jsAdd (getProp a .scaleY) (getProp b .scaleY))
    (jsAdd (getProp a .offsetY) (getProp b .offsetY))

/-- `SDim2.subtract(a, b)` (src/core.js lines 306-315). -/
def SDim2.subtract (a b : Value) : Except String Value :=
  if bangInstanceOf a .sdim2 then .error "a is not SDim2"
  else if bangInstanceOf b .sdim2 then .error "b is not SDim2"
  else newSDim2 (jsSub (getProp a .scaleX) (getProp b .scaleX))
    (jsSub (getProp a .offsetX) (getProp b .offsetX))
    (jsSub (getProp a .scaleY) (getProp b .scaleY))
    (jsSub (getProp a .offsetY) (getProp b .offsetY))

/-- Whether a call outcome is a thrown error. -/
def isErr : Except String Value → Bool
  | .error _ => true
  | .ok _ => false

/-- Every geometry-object field is a finite number, as guaranteed for every
object the (non-broken) constructors return. -/
def allFieldsFinite : Value → Bool
  | .num n => n.isSome
  | .undefined => true
  | .boolean _ => true
  | .vector2 x y => x.isSome && y.isSome
  | .sdim s o => s.isSome && o.isSome
  | .sdim2 sx ox sy oy => sx.isSome && ox.isSome && sy.isSome && oy.isSome

/-- A valid value object of class `k`: an instance of `k` whose fields are
finite numbers. -/
def IsVO (k : Kind) (v : Value) : Prop :=
  instanceOf v k = true ∧ allFieldsFinite v = true

end JS

/-! ## Concrete scenarios used by witnesses and counterexamples -/

/-- Child A of the end-to-end scenario: size = offset(100,100), position
offset(0,0), anchor scale(0,0) (all defaults except the size). -/
def dataA : UIObjectData := { name := "A", size := SDim2.twoArg 100 100 }

/-- Child B: size = scale(1,1) offset(0,0). -/
def dataB : UIObjectData := { name := "B", size := SDim2.fromScale 1 1 }

/-- A padding of offset(10,10,10,10): all four padding sides set to
`SDim.fromOffset(10)`. -/
def paddingAllTen : UIStyle :=
  { paddingLeft := some ⟨0, 10⟩, paddingTop := some ⟨0, 10⟩,
    paddingRight := some ⟨0, 10⟩, paddingBottom := some ⟨0, 10⟩ }

/-- Root[A[B]] without padding. -/
def sceneNoPad : UITree := .node { name := "Root" } [.node dataA [.node dataB []]]

/-- Root[A[B]] with the padding applied to A's inline style. -/
def sceneWithPad : UITree :=
  .node { name := "Root" } [.node { dataA with style := paddingAllTen } [.node dataB []]]

/-- The no-padding scene laid out from the root at surface size 800×600. -/
def laidNoPad : UITree := layoutRoot ⟨800, 600⟩ sceneNoPad

/-- The padded scene laid out from the root at surface size 800×600. -/
def laidWithPad : UITree := layoutRoot ⟨800, 600⟩ sceneWithPad

/-- A as laid out in the no-padding scene. -/
def aNoPad : UIObjectData := (nthChild laidNoPad 0).data

/-- B as laid out in the no-padding scene. -/
def bNoPad : UIObjectData := (nthChild (nthChild laidNoPad 0) 0).data

/-- B as laid out in the padded scene. -/
def bWithPad : UIObjectData := (nthChild (nthChild laidWithPad 0) 0).data

/-- Node X of the clipping scenario: position offset(-50,-50), size
offset(10,10), `clipsDescendants = true`. -/
def dataX : UIObjectData :=
  { name := "X", clipsDescendants := true,
    position := SDim2.twoArg (-50) (-50), size := SDim2.twoArg 10 10 }

/-- Child Y of X: size = scale(1,1). -/
def dataY : UIObjectData := { name := "Y", size := SDim2.fromScale 1 1 }

/-- Root[X[Y]]. -/
def sceneClip : UITree := .node { name := "Root" } [.node dataX [.node dataY []]]

/-- The clipping scene laid out at surface size 800×600. -/
def laidClip : UITree := layoutRoot ⟨800, 600⟩ sceneClip

/-- X as laid out (subtree including Y). -/
def laidX : UITree := nthChild laidClip 0

/-- A world holding one context (id 0) whose root is node 0, with an empty
relayout list; every node is a default fresh node (the root's parent is
null, like the write-protected `Root`). -/
def worldEmpty : World :=
  { nodes := fun _ => {},
    ctxs := fun _ => { root := 0, size := ⟨800, 600⟩, relayout := [] } }

/-- World for the reparent-from-root counterexample:
node 0 is the root (null parent) with children [1, 2]; node 1 (the child to
move) and node 2 (the new parent) are both parented to the root, all in
context 0 with an empty relayout list. -/
def cw6 : World :=
  { nodes := fun i =>
      if i = 0 then { parent := none, context := some 0, visible := true, children := [1, 2] }
      else if i = 1 then { parent := some 0, context := some 0, visible := true, children := [] }
      else if i = 2 then { parent := some 0, context := some 0, visible := true, children := [] }
      else {},
    ctxs := fun _ => { root := 0, size := ⟨800, 600⟩, relayout := [] } }

/-- The world after `setParent cw6 1 (some 2)` (moving node 1 from the root
to node 2). -/
def cw6After : World := extractOk (setParent cw6 1 (some 2)) cw6

/-- World for the amended reparent theorem's witness: node 0 is the root,
node 3 (the old parent, itself parented to the root) has child 1, and node 2
is the new parent. -/
def w6 : World :=
  { nodes := fun i =>
      if i = 0 then { parent := none, context := some 0, visible := true, children := [3, 2] }
      else if i = 3 then { parent := some 0, context := some 0, visible := true, children := [1] }
      else if i = 1 then { parent := some 3, context := some 0, visible := true, children := [] }
      else if i = 2 then { parent := some 0, context := some 0, visible := true, children := [] }
      else {},
    ctxs := fun _ => { root := 0, size := ⟨800, 600⟩, relayout := [] } }

/-- The world after `setParent w6 1 (some 2)`. -/
def w6After : World := extractOk (setParent w6 1 (some 2)) w6

/-- World for the parent-from-null witness: node 5 is fresh (null parent,
null context); node 2 is an attached node in context 0. -/
def w10 : World :=
  { nodes := fun i =>
      if i = 2 then { parent := some 0, context := some 0, visible := true, children := [] }
      else {},
    ctxs := fun _ => { root := 0, size := ⟨800, 600⟩, relayout := [] } }

/-- The world after `setParent w10 5 (some 2)` (first parenting of a fresh
node). -/
def w10After : World := extractOk (setParent w10 5 (some 2)) w10

/-! ## Lemmas about the style merge -/

theorem ovr_none_left (o : Option α) : ovr none o = o := by
  cases o <;> rfl

theorem foldl_ovr (l : List (Option α)) :
    ∀ init, l.foldl ovr init = ovr init (lastSome l) := by
  induction l with
  | nil => intro init; rfl
  | cons a t ih =>
    intro init
    show t.foldl ovr (ovr init a) = ovr init (lastSome (a :: t))
    rw [ih]
    cases h : lastSome t with
    | some v => simp [lastSome, h, ovr]
    | none => simp [lastSome, h, ovr]

theorem merge_proj (g : UIStyle → Option α)
    (hg : ∀ acc s, g (mergeStep acc s) = ovr (g acc) (g s))
    (hempty : g {} = none) (l : List UIStyle) :
    g (UIStyle.merge l) = lastSome (l.map g) := by
  have key : ∀ (l : List UIStyle) (acc : UIStyle),
      g (l.foldl mergeStep acc) = (l.map g).foldl ovr (g acc) := by
    intro l
    induction l with
    | nil => intro acc; rfl
    | cons s t ih => intro acc; simpa [hg] using ih (mergeStep acc s)
  show g (l.foldl mergeStep {}) = _
  rw [key, hempty, foldl_ovr, ovr_none_left]

theorem mergeStep_empty (s : UIStyle) : mergeStep {} s = s := by
  cases s
  simp [mergeStep, ovr_none_left]

theorem merge_merge (xs ys : List UIStyle) :
    UIStyle.merge (UIStyle.merge xs :: ys) = UIStyle.merge (xs ++ ys) := by
  show (UIStyle.merge xs :: ys).foldl mergeStep {} = (xs ++ ys).foldl mergeStep {}
  rw [List.foldl_cons, mergeStep_empty, List.foldl_append]
  rfl

theorem lastSome_cons_some_isSome (a : α) (t : List (Option α)) :
    (lastSome (some a :: t)).isSome = true := by
  show (match lastSome t with | some v => some v | none => some a).isSome = true
  cases lastSome t <;> rfl

/-- The padding fields of any computed style are non-null, because the merge
starts from the default style: the unreachable branch of `styleSDim` is
really unreachable. -/
theorem computedStyle_padding_isSome (styles : List UIStyle) (style : UIStyle) :
    (computedStyle styles style).paddingLeft.isSome = true ∧
    (computedStyle styles style).paddingTop.isSome = true ∧
    (computedStyle styles style).paddingRight.isSome = true ∧
    (computedStyle styles style).paddingBottom.isSome = true := by
  refine ⟨?_, ?_, ?_, ?_⟩ <;>
    · rw [show (computedStyle styles style) =
          UIStyle.merge (UIStyle.default :: styles ++ [style]) from rfl]
      first
      | rw [merge_proj (fun s => s.paddingLeft) (fun _ _ => rfl) rfl]
        exact lastSome_cons_some_isSome _ _
      | rw [merge_proj (fun s => s.paddingTop) (fun _ _ => rfl) rfl]
        exact lastSome_cons_some_isSome _ _
      | rw [merge_proj (fun s => s.paddingRight) (fun _ _ => rfl) rfl]
        exact lastSome_cons_some_isSome _ _
      | rw [merge_proj (fun s => s.paddingBottom) (fun _ _ => rfl) rfl]
        exact lastSome_cons_some_isSome _ _

/-! ## Claim C5 -/

/-- C5: `computedStyle` is the left-to-right override merge of
[default style, ...styles list, inline style]: on every one of the nine
fields the result is the value of the last style in that sequence whose
field is non-null, and merging a list and then applying a further style as a
final override equals merging with that style appended. -/
theorem computedStyle_is_last_nonnull_override (stylesList : List UIStyle) (inline : UIStyle) :
    ((computedStyle stylesList inline).background =
      lastSome ((UIStyle.default :: stylesList ++ [inline]).map (fun s => s.background)) ∧
     (computedStyle stylesList inline).color =
      lastSome ((UIStyle.default :: stylesList ++ [inline]).map (fun s => s.color)) ∧
     (computedStyle stylesList inline).paddingLeft =
      lastSome ((UIStyle.default :: stylesList ++ [inline]).map (fun s => s.paddingLeft)) ∧
     (computedStyle stylesList inline).paddingTop =
      lastSome ((UIStyle.default :: stylesList ++ [inline]).map (fun s => s.paddingTop)) ∧
     (computedStyle stylesList inline).paddingRight =
      lastSome ((UIStyle.default :: stylesList ++ [inline]).map (fun s => s.paddingRight)) ∧
     (computedStyle stylesList inline).paddingBottom =
      lastSome ((UIStyle.default :: stylesList ++ [inline]).map (fun s => s.paddingBottom)) ∧
     (computedStyle stylesList inline).textSize =
      lastSome ((UIStyle.default :: stylesList ++ [inline]).map (fun s => s.textSize)) ∧
     (computedStyle stylesList inline).textAlign =
      lastSome ((UIStyle.default :: stylesList ++ [inline]).map (fun s => s.textAlign)) ∧
     (computedStyle stylesList inline).verticalTextAlign =
      lastSome ((UIStyle.default :: stylesList ++ [inline]).map (fun s => s.verticalTextAlign))) ∧
    (∀ A B C : UIStyle, UIStyle.merge [UIStyle.merge [A, B], C] = UIStyle.merge [A, B, C]) := by
  constructor
  · exact ⟨merge_proj (fun s => s.background) (fun _ _ => rfl) rfl _,
      merge_proj (fun s => s.color) (fun _ _ => rfl) rfl _,
      merge_proj (fun s => s.paddingLeft) (fun _ _ => rfl) rfl _,
      merge_proj (fun s => s.paddingTop) (fun _ _ => rfl) rfl _,
      merge_proj (fun s => s.paddingRight) (fun _ _ => rfl) rfl _,
      merge_proj (fun s => s.paddingBottom) (fun _ _ => rfl) rfl _,
      merge_proj (fun s => s.textSize) (fun _ _ => rfl) rfl _,
      merge_proj (fun s => s.textAlign) (fun _ _ => rfl) rfl _,
      merge_proj (fun s => s.verticalTextAlign) (fun _ _ => rfl) rfl _⟩
  · intro A B C
    exact merge_merge [A, B] [C]

/-! ## Claim C1 -/

/-- C1: laying out a node whose parent is already laid out computes, per
axis, absoluteSize = size.scale * parent.absoluteSize + size.offset minus
the parent's absolute padding (left+right on X, top+bottom on Y), and then
the node's own absolute padding on each side as the computedStyle padding's
scale times the node's own just-computed absolute size on that axis plus the
padding's offset. -/
theorem layout_size_and_padding_formulas
    (contextSize : Vector2) (parent : UIObjectData) (updatePosition : Bool)
    (d : UIObjectData) (cs : List UITree) :
    (layoutResult contextSize parent updatePosition d cs).absoluteSize =
      ⟨d.size.scaleX * parent.absoluteSize.x + d.size.offsetX -
         parent.absolutePaddingLeft - parent.absolutePaddingRight,
       d.size.scaleY * parent.absoluteSize.y + d.size.offsetY -
         parent.absolutePaddingTop - parent.absolutePaddingBottom⟩ ∧
    (layoutResult contextSize parent updatePosition d cs).absolutePaddingLeft =
      (styleSDim (computedStyle d.styles d.style).paddingLeft).scale *
        (layoutResult contextSize parent updatePosition d cs).absoluteSize.x +
      (styleSDim (computedStyle d.styles d.style).paddingLeft).offset ∧
    (layoutResult contextSize parent updatePosition d cs).absolutePaddingTop =
      (styleSDim (computedStyle d.styles d.style).paddingTop).scale *
        (layoutResult contextSize parent updatePosition d cs).absoluteSize.y +
      (styleSDim (computedStyle d.styles d.style).paddingTop).offset ∧
    (layoutResult contextSize parent updatePosition d cs).absolutePaddingRight =
      (styleSDim (computedStyle d.styles d.style).paddingRight).scale *
        (layoutResult contextSize parent updatePosition d cs).absoluteSize.x +
      (styleSDim (computedStyle d.styles d.style).paddingRight).offset ∧
    (layoutResult contextSize parent updatePosition d cs).absolutePaddingBottom =
      (styleSDim (computedStyle d.styles d.style).paddingBottom).scale *
        (layoutResult contextSize parent updatePosition d cs).absoluteSize.y +
      (styleSDim (computedStyle d.styles d.style).paddingBottom).offset :=
  ⟨rfl, rfl, rfl, rfl, rfl⟩

/-! ## Claim C9 -/

/-- C9: `Vector2.multiply(a, b)` and `Vector2.divide(a, b)` with `b` a
Vector2 always throw "b is not Vector2 or number": the guard computes
`(!b) instanceof Vector2 || isNaN(b)`, and `isNaN` of a Vector2 instance is
true, so the componentwise Vector2-by-Vector2 branch after the guard is
unreachable and only multiplication/division by a plain number can return. -/
theorem vector2_multiply_divide_by_vector2_throws (x1 y1 x2 y2 : Option ℚ) :
    JS.Vector2.multiply (.vector2 x1 y1) (.vector2 x2 y2) =
      .error "b is not Vector2 or number" ∧
    JS.Vector2.divide (.vector2 x1 y1) (.vector2 x2 y2) =
      .error "b is not Vector2 or number" :=
  ⟨rfl, rfl⟩

/-! ## Claim C4 -/

/-- C4: after the default layout pass, visibleOnScreen is true iff the
node's absolute rectangle intersects the viewport [0,0]×contextSize with
open boundaries (absolutePosition < contextSize and
absolutePosition + absoluteSize > 0 on both axes); in particular a node
exactly touching an edge is not on screen. -/
theorem layout_visibleOnScreen_characterization
    (contextSize : Vector2) (parent : UIObjectData) (up : Bool)
    (d : UIObjectData) (cs : List UITree) :
    ((layoutResult contextSize parent up d cs).visibleOnScreen = true ↔
      ((layoutResult contextSize parent up d cs).absolutePosition.x < contextSize.x ∧
       (layoutResult contextSize parent up d cs).absolutePosition.y < contextSize.y ∧
       (layoutResult contextSize parent up d cs).absolutePosition.x +
         (layoutResult contextSize parent up d cs).absoluteSize.x > 0 ∧
       (layoutResult contextSize parent up d cs).absolutePosition.y +
         (layoutResult contextSize parent up d cs).absoluteSize.y > 0)) ∧
    (((layoutResult contextSize parent up d cs).absolutePosition.x +
        (layoutResult contextSize parent up d cs).absoluteSize.x = 0 ∨
      (layoutResult contextSize parent up d cs).absolutePosition.x = contextSize.x ∨
      (layoutResult contextSize parent up d cs).absolutePosition.y +
        (layoutResult contextSize parent up d cs).absoluteSize.y = 0 ∨
      (layoutResult contextSize parent up d cs).absolutePosition.y = contextSize.y) →
     (layoutResult contextSize parent up d cs).visibleOnScreen = false) := by
  have key : (layoutResult contextSize parent up d cs).visibleOnScreen = true ↔
      ((layoutResult contextSize parent up d cs).absolutePosition.x < contextSize.x ∧
       (layoutResult contextSize parent up d cs).absolutePosition.y < contextSize.y ∧
       (layoutResult contextSize parent up d cs).absolutePosition.x +
         (layoutResult contextSize parent up d cs).absoluteSize.x > 0 ∧
       (layoutResult contextSize parent up d cs).absolutePosition.y +
         (layoutResult contextSize parent up d cs).absoluteSize.y > 0) := by
    show (decide ((layoutResult contextSize parent up d cs).absolutePosition.x < contextSize.x) &&
        decide ((layoutResult contextSize parent up d cs).absolutePosition.y < contextSize.y) &&
        decide ((layoutResult contextSize parent up d cs).absolutePosition.x +
          (layoutResult contextSize parent up d cs).absoluteSize.x > 0) &&
        decide ((layoutResult contextSize parent up d cs).absolutePosition.y +
          (layoutResult contextSize parent up d cs).absoluteSize.y > 0)) = true ↔ _
    simp [and_assoc]
  refine ⟨key, ?_⟩
  intro h
  cases hv : (layoutResult contextSize parent up d cs).visibleOnScreen with
  | false => rfl
  | true =>
    exfalso
    obtain ⟨h1, h2, h3, h4⟩ := key.mp hv
    rcases h with h | h | h | h
    · rw [h] at h3; exact lt_irrefl 0 h3
    · rw [h] at h1; exact lt_irrefl _ h1
    · rw [h] at h4; exact lt_irrefl 0 h4
    · rw [h] at h2; exact lt_irrefl _ h2

/-- Witness for C4: a node of size offset(0,0) at position offset(0,0) under
a laid-out 800×600 parent touches the viewport edge (position + size = 0 on
the X axis) and is reported off screen. -/
theorem layout_visibleOnScreen_characterization_witness :
    (layoutResult ⟨800, 600⟩ { absoluteSize := ⟨800, 600⟩ } true {} []).visibleOnScreen = false :=
  (layout_visibleOnScreen_characterization ⟨800, 600⟩ { absoluteSize := ⟨800, 600⟩ } true {} []).2
    (Or.inl (by norm_num [layoutResult, layoutTree, layoutData, UITree.data,
      computedStyle, UIStyle.merge, mergeStep, ovr, styleSDim,
      UIStyle.default, UIStyle.fromDefault]))

/-! ## Claim C7 -/

/-- C7: a visible node that is off screen with clipsDescendants = true is a
leaf of both per-frame traversals: neither the style-change sweep nor the
draw traversal is invoked on any of its descendants (the invocation list of
its subtree is just the node itself). -/
theorem offscreen_clipping_prunes_traversals (d : UIObjectData) (cs : List UITree)
    (hv : d.visible = true) (hos : d.visibleOnScreen = false)
    (hc : d.clipsDescendants = true) :
    styleSweepCalls (.node d cs) = [.node d cs] ∧
    drawCalls (.node d cs) = [.node d cs] := by
  constructor
  · simp [styleSweepCalls, hv, hos, hc]
  · simp [drawCalls, hv, hos, hc]

/-- Witness for C7: in the laid-out Root[X[Y]] scene with X at offset
(-50,-50), size (10,10), clipsDescendants on, and Y of size scale(1,1), the
laid-out X subtree is visible, off screen and clipping, and both traversals
of it visit nothing below X (in particular never Y). -/
theorem offscreen_clipping_prunes_traversals_witness :
    styleSweepCalls (.node laidX.data laidX.children) = [.node laidX.data laidX.children] ∧
    drawCalls (.node laidX.data laidX.children) = [.node laidX.data laidX.children] :=
  offscreen_clipping_prunes_traversals laidX.data laidX.children
    (by norm_num [laidX, laidClip, sceneClip, dataX, dataY, nthChild, layoutRoot,
      layoutChildren, layoutTree, layoutData, UITree.data, UITree.children,
      computedStyle, UIStyle.merge, mergeStep, ovr, styleSDim,
      UIStyle.default, UIStyle.fromDefault, SDim2.twoArg, SDim2.fromScale])
    (by norm_num [laidX, laidClip, sceneClip, dataX, dataY, nthChild, layoutRoot,
      layoutChildren, layoutTree, layoutData, UITree.data, UITree.children,
      computedStyle, UIStyle.merge, mergeStep, ovr, styleSDim,
      UIStyle.default, UIStyle.fromDefault, SDim2.twoArg, SDim2.fromScale])
    (by norm_num [laidX, laidClip, sceneClip, dataX, dataY, nthChild, layoutRoot,
      layoutChildren, layoutTree, layoutData, UITree.data, UITree.children,
      computedStyle, UIStyle.merge, mergeStep, ovr, styleSDim,
      UIStyle.default, UIStyle.fromDefault, SDim2.twoArg, SDim2.fromScale])

/-! ## Claim C2 -/

/-- Counterexample for C2's final part: after giving A (size offset(100,100)
under an 800×600 root) a padding of offset(10,10,10,10), B (size scale(1,1))
is laid out with absoluteSize (80,80), not the unchanged (100,100): the
child-size formula subtracts the parent's absolute padding. -/
theorem padding_changes_child_size_counterexample :
    bWithPad.absoluteSize = ⟨80, 80⟩ ∧
    bNoPad.absoluteSize = ⟨100, 100⟩ ∧
    bWithPad.absoluteSize ≠ bNoPad.absoluteSize := by
  refine ⟨?_, ?_, ?_⟩ <;>
    norm_num [bWithPad, bNoPad, laidWithPad, laidNoPad, sceneWithPad, sceneNoPad,
      dataA, dataB, paddingAllTen, nthChild, layoutRoot, layoutChildren, layoutTree,
      layoutData, UITree.data, UITree.children, computedStyle, UIStyle.merge,
      mergeStep, ovr, styleSDim, UIStyle.default, UIStyle.fromDefault,
      SDim2.twoArg, SDim2.fromScale]

/-- C2 (amended): with root size 800×600, child A of size offset(100,100) at
position offset(0,0), anchor (0,0) gets absolutePosition (0,0) and
absoluteSize (100,100); child B of size scale(1,1) parented to A gets
absoluteSize (100,100); and after giving A a padding of offset(10,10,10,10),
B's absoluteSize becomes (80,80): the parent's absolute padding (left+right
and top+bottom) is subtracted in B's size formula. -/
theorem end_to_end_scenario_amended :
    aNoPad.absolutePosition = ⟨0, 0⟩ ∧
    aNoPad.absoluteSize = ⟨100, 100⟩ ∧
    bNoPad.absoluteSize = ⟨100, 100⟩ ∧
    bWithPad.absoluteSize = ⟨80, 80⟩ := by
  refine ⟨?_, ?_, ?_, ?_⟩ <;>
    norm_num [aNoPad, bWithPad, bNoPad, laidWithPad, laidNoPad, sceneWithPad,
      sceneNoPad, dataA, dataB, paddingAllTen, nthChild, layoutRoot, layoutChildren,
      layoutTree, layoutData, UITree.data, UITree.children, computedStyle,
      UIStyle.merge, mergeStep, ovr, styleSDim, UIStyle.default, UIStyle.fromDefault,
      SDim2.twoArg, SDim2.fromScale]

/-! ## Lemmas about the object-graph operations -/

theorem updNode_nodes (w : World) (i : ℕ) (f : NodeRec → NodeRec) (j : ℕ) :
    (w.updNode i f).nodes j = if j = i then f (w.nodes i) else w.nodes j := rfl

theorem updNode_ctxs (w : World) (i : ℕ) (f : NodeRec → NodeRec) :
    (w.updNode i f).ctxs = w.ctxs := rfl

theorem updCtx_ctxs (w : World) (c : ℕ) (f : Ctx → Ctx) (e : ℕ) :
    (w.updCtx c f).ctxs e = if e = c then f (w.ctxs c) else w.ctxs e := rfl

theorem updCtx_nodes (w : World) (c : ℕ) (f : Ctx → Ctx) :
    (w.updCtx c f).nodes = w.nodes := rfl

theorem scheduleLayout_nodes (w : World) (c o : ℕ) :
    (_scheduleLayout w c o).nodes = w.nodes := by
  unfold _scheduleLayout
  split <;> rfl

/-- The relayout list of a context after `_scheduleLayout`: either untouched,
or extended by the scheduled node with the guard established. -/
theorem ctxs_scheduleLayout (w : World) (c o e : ℕ) :
    ((_scheduleLayout w c o).ctxs e).relayout = (w.ctxs e).relayout ∨
    (((_scheduleLayout w c o).ctxs e).relayout = (w.ctxs e).relayout ++ [o] ∧
      ((w.nodes o).parent).isSome = true ∧ (w.nodes o).visible = true ∧
      o ∉ (w.ctxs e).relayout) := by
  unfold _scheduleLayout
  split
  case isTrue hg =>
    by_cases he : e = c
    · subst he
      right
      exact ⟨by rw [updCtx_ctxs, if_pos rfl], hg.2.1, hg.2.2.1, hg.2.2.2⟩
    · left
      rw [updCtx_ctxs, if_neg he]
  case isFalse hg => left; rfl

/-- `_scheduleLayout` preserves the relayout invariant: it only appends a
node that has a non-null parent, is visible, and is not already present. -/
theorem scheduleLayout_inv (w : World) (h : RelayoutInv w) (c o : ℕ) :
    RelayoutInv (_scheduleLayout w c o) := by
  intro e
  have hnodes := scheduleLayout_nodes w c o
  rcases ctxs_scheduleLayout w c o e with heq | ⟨heq, hpar, hvis, hnotin⟩
  · refine ⟨by rw [heq]; exact (h e).1, ?_⟩
    intro n hn
    rw [hnodes]
    rw [heq] at hn
    exact (h e).2 n hn
  · refine ⟨?_, ?_⟩
    · rw [heq, List.nodup_append]
      refine ⟨(h e).1, List.nodup_singleton o, fun a ha hb => ?_⟩
      rw [List.mem_singleton] at hb
      subst hb
      exact hnotin ha
    · intro n hn
      rw [hnodes]
      rw [heq] at hn
      rcases List.mem_append.mp hn with hn | hn
      · exact (h e).2 n hn
      · rw [List.mem_singleton] at hn
        subst hn
        refine ⟨fun hnone => ?_, hvis⟩
        rw [hnone] at hpar
        simp at hpar

/-- Appending by `_scheduleLayout` never removes an existing entry. -/
theorem scheduleLayout_mem_mono (w : World) (c o : ℕ) {e a : ℕ}
    (h : a ∈ (w.ctxs e).relayout) :
    a ∈ ((_scheduleLayout w c o).ctxs e).relayout := by
  unfold _scheduleLayout
  split
  · rw [updCtx_ctxs]
    by_cases he : e = c
    · subst he
      rw [if_pos rfl]
      exact List.mem_append.mpr (Or.inl h)
    · rw [if_neg he]
      exact h
  · exact h

/-- If the guard's first three conditions hold, the scheduled node is in
the list afterwards (freshly appended or already present). -/
theorem scheduleLayout_self_mem (w : World) (c o : ℕ)
    (h1 : (w.nodes o).context = some c) (h2 : ((w.nodes o).parent).isSome = true)
    (h3 : (w.nodes o).visible = true) :
    o ∈ ((_scheduleLayout w c o).ctxs c).relayout := by
  unfold _scheduleLayout
  split
  case isTrue hg =>
    rw [updCtx_ctxs, if_pos rfl]
    exact List.mem_append.mpr (Or.inr (List.mem_singleton.mpr rfl))
  case isFalse hg =>
    by_cases hm : o ∈ (w.ctxs c).relayout
    · exact hm
    · exact absurd ⟨h1, h2, h3, hm⟩ hg

/-- A failed parent guard makes `_scheduleLayout` a no-op. -/
theorem scheduleLayout_of_parent_none (w : World) (c o : ℕ)
    (h : (w.nodes o).parent = none) : _scheduleLayout w c o = w := by
  unfold _scheduleLayout
  rw [if_neg]
  rintro ⟨-, h2, -, -⟩
  rw [h] at h2
  exact Bool.noConfusion h2

/-- Node updates that do not change `parent` leave every node's parent
field alone. -/
theorem updNode_parent_eq (w : World) (i : ℕ) (f : NodeRec → NodeRec)
    (hf : ∀ r, (f r).parent = r.parent) (j : ℕ) :
    ((w.updNode i f).nodes j).parent = (w.nodes j).parent := by
  rw [updNode_nodes]
  by_cases hji : j = i
  · rw [if_pos hji, hf, hji]
  · rw [if_neg hji]

/-- `spliceRemove` really removes a node that occurs at most once. -/
theorem not_mem_spliceRemove_self (l : List ℕ) (x : ℕ) (h : l.count x ≤ 1) :
    x ∉ spliceRemove l x := by
  unfold spliceRemove
  split
  case isTrue hmem =>
    intro hx
    have h1 : 0 < (l.erase x).count x := List.count_pos_iff.mpr hx
    have h2 : (l.erase x).count x = l.count x - 1 := List.count_erase_self x l
    omega
  case isFalse hmem =>
    intro hx
    exact hmem ((List.dropLast_sublist l).subset hx)

/-- Node updates that change neither `parent` nor `visible` preserve the
relayout invariant. -/
theorem inv_updNode_preserve (w : World) (i : ℕ) (f : NodeRec → NodeRec)
    (hpar : ∀ r, (f r).parent = r.parent) (hvis : ∀ r, (f r).visible = r.visible)
    (h : RelayoutInv w) : RelayoutInv (w.updNode i f) := by
  intro c
  refine ⟨(h c).1, ?_⟩
  intro n hn
  have hx := (h c).2 n hn
  rw [updNode_nodes]
  by_cases hni : n = i
  · subst hni
    rw [if_pos rfl, hpar, hvis]
    exact hx
  · rw [if_neg hni]
    exact hx

/-- Setting a node's parent to a non-null node preserves the relayout
invariant. -/
theorem inv_updNode_parent_some (w : World) (i np : ℕ) (h : RelayoutInv w) :
    RelayoutInv (w.updNode i fun n => { n with parent := some np }) := by
  intro c
  refine ⟨(h c).1, ?_⟩
  intro n hn
  have hx := (h c).2 n hn
  rw [updNode_nodes]
  by_cases hni : n = i
  · subst hni
    rw [if_pos rfl]
    exact ⟨fun hnone => Option.noConfusion hnone, hx.2⟩
  · rw [if_neg hni]
    exact hx

/-- The detach half of reparenting preserves the relayout invariant. -/
theorem detach_inv (w : World) (child : ℕ) (w1 : World) (h : RelayoutInv w)
    (hd : detachFromOld w child = .ok w1) : RelayoutInv w1 := by
  unfold detachFromOld at hd
  split at hd
  · cases hd
    exact h
  · simp only [] at hd
    split at hd
    · cases hd
    · cases hd
      exact scheduleLayout_inv _
        (inv_updNode_preserve w _
          (fun n => { n with children := spliceRemove n.children child })
          (fun r => rfl) (fun r => rfl) h) _ _

/-- The attach half of reparenting preserves the relayout invariant. -/
theorem attach_inv (w1 : World) (child np : ℕ) (w2 : World) (h : RelayoutInv w1)
    (ha : attachToNew w1 child np = .ok w2) : RelayoutInv w2 := by
  unfold attachToNew at ha
  cases hc : (w1.nodes np).context with
  | none => rw [hc] at ha; cases ha
  | some c0 =>
    rw [hc] at ha
    cases ha
    refine inv_updNode_parent_some _ child np (scheduleLayout_inv _ ?_ c0 child)
    exact inv_updNode_preserve _ np _ (fun r => rfl) (fun r => rfl)
      (inv_updNode_preserve _ child _ (fun r => rfl) (fun r => rfl) h)

/-- Reparenting to a non-null parent preserves the relayout invariant. -/
theorem setParent_some_inv (w : World) (child np : ℕ) (w2 : World)
    (h : RelayoutInv w) (hok : setParent w child (some np) = .ok w2) :
    RelayoutInv w2 := by
  unfold setParent at hok
  split at hok
  · cases hok
    exact h
  · cases hd : detachFromOld w child with
    | error e => rw [hd] at hok; cases hok
    | ok w1 =>
      rw [hd] at hok
      exact attach_inv w1 child np w2 (detach_inv w child w1 h hd) hok

/-! ## Claim C3 -/

/-- Counterexample for C3: the surface-resize path pushes the context's root
directly, bypassing the `_scheduleLayout` guard.  Starting from a world that
satisfies the invariant, one resize leaves the root — whose parent is null —
in the relayout list. -/
theorem resize_breaks_relayout_invariant :
    RelayoutInv worldEmpty ∧ ¬ RelayoutInv (setSize worldEmpty 0 ⟨100, 100⟩) := by
  constructor
  · intro c
    exact ⟨List.nodup_nil, fun n hn => absurd hn (List.not_mem_nil n)⟩
  · intro hinv
    have hmem : (0 : ℕ) ∈ ((setSize worldEmpty 0 ⟨100, 100⟩).ctxs 0).relayout := by
      show (0 : ℕ) ∈ [0]
      exact List.mem_singleton.mpr rfl
    exact ((hinv 0).2 0 hmem).1 rfl

/-- C3 (amended): `_scheduleLayout` — and hence the property-mutation
trigger — preserves the invariant that relayout entries have a non-null
parent, are visible and are unduplicated, and reparenting to a non-null
parent preserves it as well; the surface-resize path does not go through the
guard: it appends the context's root unconditionally (so after a resize the
list holds the root, whose parent is null, and repeated resizes duplicate
it). -/
theorem relayout_invariant_amended (w : World) (h : RelayoutInv w) :
    (∀ c o, RelayoutInv (_scheduleLayout w c o)) ∧
    (∀ o, RelayoutInv (propertySetterTrigger w o)) ∧
    (∀ child np w2, setParent w child (some np) = .ok w2 → RelayoutInv w2) ∧
    (∀ c s, ((setSize w c s).ctxs c).relayout =
      (w.ctxs c).relayout ++ [(w.ctxs c).root]) := by
  refine ⟨fun c o => scheduleLayout_inv w h c o, ?_,
    fun child np w2 hok => setParent_some_inv w child np w2 h hok, ?_⟩
  · intro o
    unfold propertySetterTrigger
    cases hc : (w.nodes o).context with
    | none => exact h
    | some c => exact scheduleLayout_inv w h c o
  · intro c s
    unfold setSize
    rw [updCtx_ctxs, if_pos rfl]

/-- Witness for the amended C3: scheduling node 1 in the all-fresh world
keeps the invariant. -/
theorem relayout_invariant_amended_witness :
    RelayoutInv (_scheduleLayout worldEmpty 0 1) :=
  (relayout_invariant_amended worldEmpty
    (fun _ => ⟨List.nodup_nil, fun n hn => absurd hn (List.not_mem_nil n)⟩)).1 0 1

/-! ## Claim C10 -/

/-- C10: assigning a parent to a node whose current parent is null never
enqueues the node itself: the `_scheduleLayout(this)` call happens before
`this.#parent = newParent`, so its parent check still reads the old null
parent and every relayout list is left exactly as it was. -/
theorem setParent_from_null_never_enqueues (w : World) (child : ℕ) (np : Option ℕ)
    (w2 : World) (hp : (w.nodes child).parent = none)
    (hok : setParent w child np = .ok w2) :
    ∀ c, (w2.ctxs c).relayout = (w.ctxs c).relayout := by
  unfold setParent at hok
  split at hok
  · cases hok
    intro c
    rfl
  · have hd : detachFromOld w child = .ok w := by
      unfold detachFromOld
      rw [hp]
    rw [hd] at hok
    cases np with
    | none =>
      cases hok
      intro c
      rfl
    | some np =>
      unfold attachToNew at hok
      simp only [] at hok
      split at hok
      · cases hok
      · rename_i c0 hc0
        cases hok
        intro c
        have hpar3 : (((w.updNode child fun n =>
            { n with context := (w.nodes np).context }).updNode np
            fun n => { n with children := n.children ++ [child] }).nodes child).parent =
            none := by
          rw [updNode_parent_eq _ np (fun n => { n with children := n.children ++ [child] })
              (fun r => rfl) child,
            updNode_parent_eq _ child (fun n => { n with context := (w.nodes np).context })
              (fun r => rfl) child, hp]
        rw [updNode_ctxs, scheduleLayout_of_parent_none _ _ _ hpar3,
          updNode_ctxs, updNode_ctxs]

/-- Witness for C10: first parenting of the fresh node 5 to node 2 leaves
context 0's relayout list unchanged. -/
theorem setParent_from_null_never_enqueues_witness :
    (w10After.ctxs 0).relayout = (w10.ctxs 0).relayout :=
  setParent_from_null_never_enqueues w10 5 (some 2) w10After rfl rfl 0

/-! ## Claim C6 -/

/-- Counterexample for C6: moving node 1 from the root (node 0, whose
parent is null) to node 2 — a reparent with a non-null old parent and a
different non-null new parent — does not schedule the old parent: the
`_scheduleLayout` guard requires the old parent itself to have a non-null
parent, which the root does not. -/
theorem reparent_root_oldparent_not_scheduled :
    (cw6.nodes 1).parent = some 0 ∧
    (some 2 : Option ℕ) ≠ some 0 ∧
    setParent cw6 1 (some 2) = .ok cw6After ∧
    0 ∉ (cw6After.ctxs 0).relayout := by
  refine ⟨rfl, by decide, rfl, by decide⟩

/-- C6 (amended): after `child.parent = newParent` with distinct nodes, a
non-null old parent `p` and a different non-null new parent, the child's
context equals the new parent's context and the old parent's children list
no longer contains the child; the old parent is in its context's relayout
queue provided it passes the scheduling guard: it has itself a non-null
parent and is visible (a root old parent is not enqueued), and it occurred
at most once in the children list. -/
theorem reparent_updates_context_children_schedule
    (w : World) (child p np : ℕ) (w2 : World)
    (hp : (w.nodes child).parent = some p)
    (hnp : np ≠ p) (hcp : child ≠ p) (hcnp : child ≠ np)
    (hpp : ((w.nodes p).parent).isSome = true)
    (hpv : (w.nodes p).visible = true)
    (hcount : (w.nodes p).children.count child ≤ 1)
    (hok : setParent w child (some np) = .ok w2) :
    (w2.nodes child).context = (w2.nodes np).context ∧
    child ∉ (w2.nodes p).children ∧
    ∀ pc, (w.nodes p).context = some pc → p ∈ (w2.ctxs pc).relayout := by
  unfold setParent at hok
  split at hok
  case isTrue hEq =>
    rw [hp] at hEq
    exact absurd (Option.some.inj hEq) hnp
  case isFalse hne =>
    cases hpc : (w.nodes p).context with
    | none =>
      have hderr : detachFromOld w child = .error () := by
        unfold detachFromOld
        rw [hp]
        simp only []
        rw [show ((w.updNode p fun n =>
            { n with children := spliceRemove n.children child }).nodes p).context =
          (w.nodes p).context from by rw [updNode_nodes, if_pos rfl]]
        rw [hpc]
      rw [hderr] at hok
      cases hok
    | some pc0 =>
      have hdok : detachFromOld w child = .ok (_scheduleLayout
          (w.updNode p fun n => { n with children := spliceRemove n.children child })
          pc0 p) := by
        unfold detachFromOld
        rw [hp]
        simp only []
        rw [show ((w.updNode p fun n =>
            { n with children := spliceRemove n.children child }).nodes p).context =
          (w.nodes p).context from by rw [updNode_nodes, if_pos rfl]]
        rw [hpc]
      rw [hdok] at hok
      unfold attachToNew at hok
      simp only [] at hok
      split at hok
      · cases hok
      · rename_i c0 hc0
        cases hok
        refine ⟨?_, ?_, ?_⟩
        · simp [updNode_nodes, scheduleLayout_nodes, hcnp, hcp, hnp,
            Ne.symm hcnp, Ne.symm hcp, Ne.symm hnp]
        · simp only [updNode_nodes, scheduleLayout_nodes,
            if_neg (Ne.symm hcp), if_neg (Ne.symm hnp), if_pos rfl]
          exact not_mem_spliceRemove_self _ _ hcount
        · intro pc hpc2
          have hpceq : pc = pc0 := (Option.some.inj hpc2).symm
          rw [hpceq]
          have hmem1 : p ∈ ((_scheduleLayout (w.updNode p fun n =>
              { n with children := spliceRemove n.children child }) pc0 p).ctxs
              pc0).relayout := by
            apply scheduleLayout_self_mem
            · rw [updNode_nodes, if_pos rfl]
              exact hpc
            · rw [updNode_nodes, if_pos rfl]
              exact hpp
            · rw [updNode_nodes, if_pos rfl]
              exact hpv
          exact scheduleLayout_mem_mono _ _ _ hmem1

/-- Witness for the amended C6: in `w6`, moving node 1 from node 3 (old
parent, itself a child of the root) to node 2 updates the child's context,
removes it from node 3's children, and schedules node 3. -/
theorem reparent_updates_context_children_schedule_witness :
    (w6After.nodes 1).context = (w6After.nodes 2).context ∧
    1 ∉ (w6After.nodes 3).children ∧
    3 ∈ (w6After.ctxs 0).relayout := by
  obtain ⟨h1, h2, h3⟩ := reparent_updates_context_children_schedule w6 1 3 2 w6After
    rfl (by decide) (by decide) (by decide) rfl rfl (by decide) rfl
  exact ⟨h1, h2, h3 0 rfl⟩

/-! ## Claim C8 -/

namespace JS

theorem instanceOf_boolean (b : Bool) (k : Kind) : instanceOf (.boolean b) k = false := by
  cases k <;> rfl

/-- The broken guards: `!v instanceof K` is always false, for every value. -/
theorem bangInstanceOf_eq_false (v : Value) (k : Kind) : bangInstanceOf v k = false :=
  instanceOf_boolean _ _

theorem instanceOf_unique {v : Value} {k k2 : Kind} (h : instanceOf v k = true)
    (hne : k2 ≠ k) : instanceOf v k2 = false := by
  cases v <;> cases k <;> cases k2 <;> simp_all [instanceOf]

theorem jsIsNaN_of_instance {v : Value} {k : Kind} (h : instanceOf v k = true) :
    jsIsNaN v = true := by
  cases v <;> cases k <;> first | rfl | exact Bool.noConfusion h

theorem addN_none_left (m : Option ℚ) : addN none m = none := by cases m <;> rfl

theorem addN_none_right (m : Option ℚ) : addN m none = none := by cases m <;> rfl

theorem subN_none_left (m : Option ℚ) : subN none m = none := by cases m <;> rfl

theorem subN_none_right (m : Option ℚ) : subN m none = none := by cases m <;> rfl

theorem toNumber_num (n : Option ℚ) : toNumber (.num n) = n := rfl

theorem toNumber_getProp_x_of_not_vector2 {v : Value}
    (h : instanceOf v .vector2 = false) : toNumber (getProp v .x) = none := by
  cases v <;> simp_all [instanceOf, getProp, toNumber]

theorem toNumber_getProp_scale_of_not_sdim {v : Value}
    (h : instanceOf v .sdim = false) : toNumber (getProp v .scale) = none := by
  cases v <;> simp_all [instanceOf, getProp, toNumber]

theorem toNumber_getProp_scaleX_of_not_sdim2 {v : Value}
    (h : instanceOf v .sdim2 = false) : toNumber (getProp v .scaleX) = none := by
  cases v <;> simp_all [instanceOf, getProp, toNumber]

theorem vadd_err_of_nan (a b : Value)
    (h : toNumber (getProp a .x) = none ∨ toNumber (getProp b .x) = none) :
    Vector2.add a b = .error "x is NaN" := by
  rcases h with h | h <;>
    simp [Vector2.add, bangInstanceOf_eq_false, newVector2, jsAdd, jsIsNaN,
      toNumber_num, h, addN_none_left, addN_none_right]

theorem vsub_err_of_nan (a b : Value)
    (h : toNumber (getProp a .x) = none ∨ toNumber (getProp b .x) = none) :
    Vector2.subtract a b = .error "x is NaN" := by
  rcases h with h | h <;>
    simp [Vector2.subtract, bangInstanceOf_eq_false, newVector2, jsSub, jsIsNaN,
      toNumber_num, h, subN_none_left, subN_none_right]

theorem vmul_err_of_isnan (a b : Value) (h : jsIsNaN b = true) :
    Vector2.multiply a b = .error "b is not Vector2 or number" := by
  simp [Vector2.multiply, bangInstanceOf_eq_false, h]

theorem vdiv_err_of_isnan (a b : Value) (h : jsIsNaN b = true) :
    Vector2.divide a b = .error "b is not Vector2 or number" := by
  simp [Vector2.divide, bangInstanceOf_eq_false, h]

theorem sadd_err_of_nan (a b : Value)
    (h : toNumber (getProp a .scale) = none ∨ toNumber (getProp b .scale) = none) :
    SDim.add a b = .error "scale is NaN" := by
  rcases h with h | h <;>
    simp [SDim.add, bangInstanceOf_eq_false, newSDim, jsAdd, jsIsNaN,
      toNumber_num, h, addN_none_left, addN_none_right]

theorem ssub_err_of_nan (a b : Value)
    (h : toNumber (getProp a .scale) = none ∨ toNumber (getProp b .scale) = none) :
    SDim.subtract a b = .error "scale is NaN" := by
  rcases h with h | h <;>
    simp [SDim.subtract, bangInstanceOf_eq_false, newSDim, jsSub, jsIsNaN,
      toNumber_num, h, subN_none_left, subN_none_right]

theorem s2add_err_of_nan (a b : Value)
    (h : toNumber (getProp a .scaleX) = none ∨ toNumber (getProp b .scaleX) = none) :
    SDim2.add a b = .error "scaleX is NaN" := by
  rcases h with h | h <;>
    simp [SDim2.add, bangInstanceOf_eq_false, newSDim2, jsAdd, jsIsNaN,
      toNumber_num, h, addN_none_left, addN_none_right]

theorem s2sub_err_of_nan (a b : Value)
    (h : toNumber (getProp a .scaleX) = none ∨ toNumber (getProp b .scaleX) = none) :
    SDim2.subtract a b = .error "scaleX is NaN" := by
  rcases h with h | h <;>
    simp [SDim2.subtract, bangInstanceOf_eq_false, newSDim2, jsSub, jsIsNaN,
      toNumber_num, h, subN_none_left, subN_none_right]

/-- C8: every polymorphic arithmetic operation on the geometry value
objects, called with valid value objects where an argument is not of the
expected kind, throws: the broken `(!a) instanceof` guards never fire, but
the mismatched operand's fields coerce to NaN (or the wrong-kind object is
itself NaN to `isNaN`), and the result constructors' NaN checks throw before
any value is returned — a type mismatch is never silently coerced into a
result. -/
theorem arith_type_mismatch_raises (a b : Value) (ka kb : Kind)
    (hva : IsVO ka a) (hvb : IsVO kb b) :
    ((ka ≠ .vector2 ∨ kb ≠ .vector2) →
      isErr (Vector2.add a b) = true ∧ isErr (Vector2.subtract a b) = true ∧
      isErr (Vector2.multiply a b) = true ∧ isErr (Vector2.divide a b) = true) ∧
    ((ka ≠ .sdim ∨ kb ≠ .sdim) →
      isErr (SDim.add a b) = true ∧ isErr (SDim.subtract a b) = true) ∧
    ((ka ≠ .sdim2 ∨ kb ≠ .sdim2) →
      isErr (SDim2.add a b) = true ∧ isErr (SDim2.subtract a b) = true) := by
  obtain ⟨hia, hfa⟩ := hva
  obtain ⟨hib, hfb⟩ := hvb
  refine ⟨?_, ?_, ?_⟩
  · intro hmix
    have hx : toNumber (getProp a .x) = none ∨ toNumber (getProp b .x) = none := by
      rcases hmix with hk | hk
      · exact Or.inl (toNumber_getProp_x_of_not_vector2 (instanceOf_unique hia (Ne.symm hk)))
      · exact Or.inr (toNumber_getProp_x_of_not_vector2 (instanceOf_unique hib (Ne.symm hk)))
    refine ⟨?_, ?_, ?_, ?_⟩
    · rw [vadd_err_of_nan a b hx]; rfl
    · rw [vsub_err_of_nan a b hx]; rfl
    · rw [vmul_err_of_isnan a b (jsIsNaN_of_instance hib)]; rfl
    · rw [vdiv_err_of_isnan a b (jsIsNaN_of_instance hib)]; rfl
  · intro hmix
    have hs : toNumber (getProp a .scale) = none ∨ toNumber (getProp b .scale) = none := by
      rcases hmix with hk | hk
      · exact Or.inl (toNumber_getProp_scale_of_not_sdim (instanceOf_unique hia (Ne.symm hk)))
      · exact Or.inr (toNumber_getProp_scale_of_not_sdim (instanceOf_unique hib (Ne.symm hk)))
    exact ⟨by rw [sadd_err_of_nan a b hs]; rfl, by rw [ssub_err_of_nan a b hs]; rfl⟩
  · intro hmix
    have hs : toNumber (getProp a .scaleX) = none ∨ toNumber (getProp b .scaleX) = none := by
      rcases hmix with hk | hk
      · exact Or.inl (toNumber_getProp_scaleX_of_not_sdim2 (instanceOf_unique hia (Ne.symm hk)))
      · exact Or.inr (toNumber_getProp_scaleX_of_not_sdim2 (instanceOf_unique hib (Ne.symm hk)))
    exact ⟨by rw [s2add_err_of_nan a b hs]; rfl, by rw [s2sub_err_of_nan a b hs]; rfl⟩

/-- Witness for C8: adding a valid SDim to a valid Vector2 throws. -/
theorem arith_type_mismatch_raises_witness :
    isErr (Vector2.add (.vector2 (some 1) (some 2)) (.sdim (some 3) (some 4))) = true :=
  ((arith_type_mismatch_raises (.vector2 (some 1) (some 2)) (.sdim (some 3) (some 4))
    .vector2 .sdim ⟨rfl, rfl⟩ ⟨rfl, rfl⟩).1 (Or.inr (by decide))).1

end JS
